import Mathlib

/-!
Verification of the `contacts` repository (Go): a shallow embedding of the
field translator (`convertPeopleAPIToCard`, `parseDateValue`), the local
store operations (`GetContact`, `WriteContact`, `DeleteContact`) and the
OAuth callback handler of `AuthorizeWithPKCE`, together with proofs of the
spec's claims about them.

The vCard card model follows the go-vcard library API used by the code:
a card is a finite map from property keys to lists of fields, `Set`
replaces the whole bucket with a single field, `Add` appends, and `Value`
reads the first field's value (empty string when the bucket is empty).
Strings are modelled at character level; the Go code operates on bytes,
which agrees on the ASCII data all claims concern.
-/

/-- A single vCard field: a value plus parameters (the go-vcard field type
with `Value` and `Params`; a parameter maps a name such as TYPE to a list
of values, and `Params.Get` reads the first value). -/
structure VField where
  value : String
  params : List (String × List String)
deriving DecidableEq, Repr

/-- A vCard card, modelling the go-vcard card map from keys to field lists.
Only key-indexed access is ever used by the code, so a function model is
faithful. -/
def Card := String → List VField

/-- The empty card, `make(vcard.Card)`. -/
def Card.empty : Card := fun _ => []

/-- Bucket lookup, `card[k]`. -/
def cardGet (k : String) (c : Card) : List VField := c k

/-- go-vcard `Card.Set`: replace the bucket at `k` with the single field `f`. -/
def cardSet (k : String) (f : VField) (c : Card) : Card :=
  fun k' => if k' = k then [f] else c k'

/-- go-vcard `Card.Add`: append `f` to the bucket at `k`. -/
def cardAdd (k : String) (f : VField) (c : Card) : Card :=
  fun k' => if k' = k then c k' ++ [f] else c k'

/-- go-vcard `Card.Value`: the first field's value at `k`, or `""`. -/
def cardValue (k : String) (c : Card) : String :=
  match c k with
  | [] => ""
  | f :: _ => f.value

/-- `CardUID` from config.go: `card.Value(vcard.FieldUID)` (the code's extra
empty-string check is the identity on this). -/
def cardUID (c : Card) : String := cardValue "UID" c

/-- `CardFullName` from config.go: `card.Value(vcard.FieldFormattedName)`. -/
def cardFullName (c : Card) : String := cardValue "FN" c

-- Basic card lemmas.

theorem cardGet_set_self (k : String) (f : VField) (c : Card) :
    cardGet k (cardSet k f c) = [f] := by
  simp [cardGet, cardSet]

theorem cardGet_set_ne (k k' : String) (f : VField) (c : Card) (h : k ≠ k') :
    cardGet k (cardSet k' f c) = cardGet k c := by
  simp [cardGet, cardSet, h]

theorem cardGet_add_self (k : String) (f : VField) (c : Card) :
    cardGet k (cardAdd k f c) = cardGet k c ++ [f] := by
  simp [cardGet, cardAdd]

theorem cardGet_add_ne (k k' : String) (f : VField) (c : Card) (h : k ≠ k') :
    cardGet k (cardAdd k' f c) = cardGet k c := by
  simp [cardGet, cardAdd, h]

theorem cardValue_eq_of_get_eq (k : String) (c₁ c₂ : Card)
    (h : cardGet k c₁ = cardGet k c₂) : cardValue k c₁ = cardValue k c₂ := by
  unfold cardValue
  unfold cardGet at h
  rw [h]

theorem cardValue_set_self (k : String) (f : VField) (c : Card) :
    cardValue k (cardSet k f c) = f.value := by
  unfold cardValue
  have h := cardGet_set_self k f c
  unfold cardGet at h
  rw [h]

theorem cardValue_set_ne (k k' : String) (f : VField) (c : Card) (h : k ≠ k') :
    cardValue k (cardSet k' f c) = cardValue k c :=
  cardValue_eq_of_get_eq _ _ _ (cardGet_set_ne k k' f c h)

theorem cardValue_empty (k : String) : cardValue k Card.empty = "" := rfl

/-- Folding a card-building step that never touches bucket `k` leaves
bucket `k` unchanged. -/
theorem foldl_cardGet_const {α : Type} (step : Card → α → Card) (k : String)
    (h : ∀ c x, cardGet k (step c x) = cardGet k c) :
    ∀ (l : List α) (c : Card), cardGet k (List.foldl step c l) = cardGet k c := by
  intro l
  induction l with
  | nil => intro c; rfl
  | cons x xs ih => intro c; rw [List.foldl_cons, ih, h]

-- String helpers shared by the embedding.

/-- String data of an appended string. -/
theorem strData_append (a b : String) : (a ++ b).data = a.data ++ b.data := by
  cases a; cases b; rfl

theorem strLength_append (a b : String) : (a ++ b).length = a.length + b.length := by
  show (a ++ b).data.length = a.data.length + b.data.length
  rw [strData_append, List.length_append]

theorem strExt (a b : String) (h : a.data = b.data) : a = b := by
  cases a; cases b; cases h; rfl

theorem strAppend_right_inj (p a b : String) : p ++ a = p ++ b ↔ a = b := by
  constructor
  · intro h
    have hd : (p ++ a).data = (p ++ b).data := by rw [h]
    rw [strData_append, strData_append] at hd
    exact strExt a b (List.append_cancel_left hd)
  · intro h; rw [h]

/-- `strings.Split(s, "/")` for a one-character separator: Go semantics,
always at least one (possibly empty) segment. -/
def splitOnChar (sep : Char) : List Char → List (List Char)
  | [] => [[]]
  | x :: xs =>
    match splitOnChar sep xs with
    | [] => [[]]
    | g :: gs => if x = sep then [] :: g :: gs else (x :: g) :: gs

/-- UID extraction from `convertPeopleAPIToCard`: if the resource name
contains a slash, keep only the segment after the last slash. -/
def extractUid (rn : String) : String :=
  if rn.data.contains '/' then ⟨(splitOnChar '/' rn.data).getLastD []⟩ else rn

/-- The heuristic in `DeleteContact` / provider `WriteContact`:
`strings.Contains(uid, "-")`. -/
def hasDash (uid : String) : Bool := uid.data.contains '-'

-- Go-style decimal formatting (fmt %0Nd), used by the date encoders.

/-- Left-pad a character list with zeros to width `w`. -/
def padZeros (w : Nat) (l : List Char) : List Char :=
  List.replicate (w - l.length) '0' ++ l

/-- Decimal digits of a natural number. -/
def natDecimal (m : Nat) : List Char := (Nat.toDigits 10 m)

/-- Go `fmt.Sprintf("%0Nd", n)` for an integer `n` and width `w`. -/
def goFmtInt (w : Nat) (n : Int) : String :=
  if n < 0 then ⟨'-' :: padZeros (w - 1) (natDecimal n.natAbs)⟩
  else ⟨padZeros w (natDecimal n.toNat)⟩

-- Dates: the People API wire date and vCard date strings.

/-- A People API structured date (`Date{Year, Month, Day}`, Go ints). -/
structure GDate where
  year : Int
  month : Int
  day : Int
deriving DecidableEq, Repr

/-- Result of the write-path date parser: the `map[string]int` returned by
`parseDateValue`, with `year = 0` standing for an absent year. -/
structure ParsedDate where
  year : Nat
  month : Nat
  day : Nat
deriving DecidableEq, Repr

/-- Gregorian leap year, as in Go's `time` package (year 0 is a leap year). -/
def isLeap (y : Nat) : Bool := y % 4 == 0 && (y % 100 != 0 || y % 400 == 0)

/-- Days in a month, as in Go's `time.daysIn`. -/
def daysIn (y m : Nat) : Nat :=
  if m = 2 then (if isLeap y then 29 else 28)
  else if m = 4 ∨ m = 6 ∨ m = 9 ∨ m = 11 then 30
  else 31

/-- `strings.ReplaceAll(s, "-", "")`. -/
def stripDashes (s : String) : String := ⟨s.data.filter (fun c => c ≠ '-')⟩

/-- Decimal value of a digit list. -/
def digitsToNat (l : List Char) : Nat := l.foldl (fun a c => a * 10 + (c.toNat - 48)) 0

/-- `time.Parse("20060102", t)` on an 8-character string: four year digits,
two month digits in 1..12, two day digits in range for the month and year;
anything else is a parse error. -/
def goParseFullDate (t : String) : Option ParsedDate :=
  let l := t.data
  if l.all Char.isDigit then
    let y := digitsToNat (l.take 4)
    let m := digitsToNat ((l.drop 4).take 2)
    let d := digitsToNat (l.drop 6)
    if 1 ≤ m ∧ m ≤ 12 ∧ 1 ≤ d ∧ d ≤ daysIn y m then some ⟨y, m, d⟩ else none
  else none

/-- `time.Parse("0102", t)` on a 4-character string: month and day digits,
validated against year 0 (which is a leap year). -/
def goParseMonthDay (t : String) : Option ParsedDate :=
  let l := t.data
  if l.all Char.isDigit then
    let m := digitsToNat (l.take 2)
    let d := digitsToNat (l.drop 2)
    if 1 ≤ m ∧ m ≤ 12 ∧ 1 ≤ d ∧ d ≤ daysIn 0 m then some ⟨0, m, d⟩ else none
  else none

/-- `parseDateValue` from the source: strip every dash, then parse
`YYYYMMDD` when 8 characters remain, `MMDD` when 4 remain, else drop. -/
def parseDateValue (s : String) : Option ParsedDate :=
  let t := stripDashes s
  if t.length = 8 then goParseFullDate t
  else if t.length = 4 then goParseMonthDay t
  else none

/-- Valid calendar date predicate used to phrase the spec's words. -/
def isRealDate (y m d : Nat) : Prop := 1 ≤ m ∧ m ≤ 12 ∧ 1 ≤ d ∧ d ≤ daysIn y m

instance (y m d : Nat) : Decidable (isRealDate y m d) := by
  unfold isRealDate; infer_instance

/-- The write-path date parser as the spec/claim describes it: remove every
dash wherever it occurs; a stripped string of exactly 8 digits that is a
valid calendar date gives a full triple; exactly 4 digits that are a valid
month/day give a month/day triple with the year absent (0); everything else
is dropped. -/
def parseDateValueSpec (s : String) : Option ParsedDate :=
  let t := stripDashes s
  if t.length = 8 ∧ t.data.all Char.isDigit ∧
      isRealDate (digitsToNat (t.data.take 4)) (digitsToNat ((t.data.drop 4).take 2))
        (digitsToNat (t.data.drop 6)) then
    some ⟨digitsToNat (t.data.take 4), digitsToNat ((t.data.drop 4).take 2),
      digitsToNat (t.data.drop 6)⟩
  else if t.length = 4 ∧ t.data.all Char.isDigit ∧
      isRealDate 0 (digitsToNat (t.data.take 2)) (digitsToNat (t.data.drop 2)) then
    some ⟨0, digitsToNat (t.data.take 2), digitsToNat (t.data.drop 2)⟩
  else none

/-- The birthday encoder inside `convertPeopleAPIToCard`: full date when
year, month and day are all positive; `--MMDD` when only month and day are
positive; otherwise no BDAY field. -/
def birthdayDateStr (d : GDate) : Option String :=
  if 0 < d.year ∧ 0 < d.month ∧ 0 < d.day then
    some (goFmtInt 4 d.year ++ goFmtInt 2 d.month ++ goFmtInt 2 d.day)
  else if 0 < d.month ∧ 0 < d.day then
    some ("--" ++ goFmtInt 2 d.month ++ goFmtInt 2 d.day)
  else none

/-- The event date encoder inside `convertPeopleAPIToCard`: note that the
first branch fires whenever the year is positive, regardless of month/day. -/
def eventDateStr (d : GDate) : String :=
  if 0 < d.year then goFmtInt 4 d.year ++ goFmtInt 2 d.month ++ goFmtInt 2 d.day
  else if 0 < d.month ∧ 0 < d.day then "--" ++ goFmtInt 2 d.month ++ goFmtInt 2 d.day
  else ""

-- People API response structures (JSON shapes from the source).

/-- `peopleAPIName`. The honorific parts are named `honorificPref` and
`honorificSuffix` here. -/
structure GName where
  displayName : String
  familyName : String
  givenName : String
  middleName : String
  honorificPref : String
  honorificSuffix : String
  displayNameLastFirst : String
deriving DecidableEq, Repr

/-- `peopleAPIPhoneNumber` (also the shape of email, URL, location,
external-id, misc-keyword and SIP entries: a value and a type label). -/
structure GValueType where
  value : String
  type : String
deriving DecidableEq, Repr

/-- `peopleAPIAddress`. -/
structure GAddress where
  streetAddress : String
  extendedAddress : String
  city : String
  region : String
  postalCode : String
  country : String
  postOfficeBox : String
  type : String
deriving DecidableEq, Repr

/-- `peopleAPIOrganization`. -/
structure GOrg where
  name : String
  title : String
  department : String
deriving DecidableEq, Repr

/-- `peopleAPIBirthday`: a single structured date. -/
structure GBirthday where
  date : GDate
deriving DecidableEq, Repr

/-- `peopleAPIEvent`: a structured date plus a type label. -/
structure GEvent where
  date : GDate
  type : String
deriving DecidableEq, Repr

/-- `peopleAPIImClient`. -/
structure GImClient where
  username : String
  protocol : String
  type : String
deriving DecidableEq, Repr

/-- `peopleAPIRelation`. -/
structure GRelation where
  person : String
  type : String
deriving DecidableEq, Repr

/-- `peopleAPICalendarURL`. -/
structure GCalendarURL where
  url : String
  type : String
deriving DecidableEq, Repr

/-- `peopleAPIMembership`: an optional contact-group resource name
(the nested pointer struct collapsed to its single field). -/
structure GMembership where
  contactGroup : Option String
deriving DecidableEq, Repr

/-- `peopleAPIUserDefined` / `peopleAPIClientData`: a key/value pair. -/
structure GKeyValue where
  key : String
  value : String
deriving DecidableEq, Repr

/-- A metadata source: a type and an id. -/
structure GSource where
  type : String
  id : String
deriving DecidableEq, Repr

/-- `peopleAPIPersonMetadata`. -/
structure GMetadata where
  sources : List GSource
deriving DecidableEq, Repr

/-- `peopleAPIPerson`: the provider contact payload. Single-value wrapper
groups (nickname, photo, biography, gender, locale, interest, skill,
occupation, cover photo, age range) are plain strings here. -/
structure GPerson where
  resourceName : String
  etag : String
  names : List GName
  nicknames : List String
  phoneNumbers : List GValueType
  emailAddresses : List GValueType
  addresses : List GAddress
  organizations : List GOrg
  birthdays : List GBirthday
  photos : List String
  biographies : List String
  urls : List GValueType
  events : List GEvent
  genders : List String
  imClients : List GImClient
  relations : List GRelation
  calendarUrls : List GCalendarURL
  sipAddresses : List GValueType
  locales : List String
  interests : List String
  skills : List String
  occupations : List String
  locations : List GValueType
  memberships : List GMembership
  userDefined : List GKeyValue
  clientData : List GKeyValue
  extIds : List GValueType
  miscKeywords : List GValueType
  coverPhotos : List String
  ageRanges : List String
  metadata : Option GMetadata
deriving DecidableEq, Repr

-- Character-level models of the strings package functions used.

/-- `strings.ToLower` (ASCII model; the claims only involve ASCII data). -/
def goToLower (s : String) : String := ⟨s.data.map Char.toLower⟩

/-- `strings.ToUpper` (ASCII model). -/
def goToUpper (s : String) : String := ⟨s.data.map Char.toUpper⟩

/-- `strings.ReplaceAll(s, " ", "-")`. -/
def goSpaceToDash (s : String) : String :=
  ⟨s.data.map (fun c => if c = ' ' then '-' else c)⟩

/-- The synthesized extension key for a user-defined pair:
`"X-GOOGLE-CUSTOM-" + strings.ToUpper(strings.ReplaceAll(key, " ", "-"))`. -/
def udExtKey (k : String) : String := "X-GOOGLE-CUSTOM-" ++ goToUpper (goSpaceToDash k)

/-- The synthesized extension key for a client-data pair. -/
def clientExtKey (k : String) : String := "X-GOOGLE-CLIENT-" ++ goToUpper (goSpaceToDash k)

-- Per-group conversion steps of convertPeopleAPIToCard, in source order.

/-- TYPE parameter list: present (lower-cased) only when the label is
non-empty. -/
def typedParams (ty : String) : List (String × List String) :=
  if ty ≠ "" then [("TYPE", [goToLower ty])] else []

/-- TYPE parameter list preserving the original case (used for locations,
external ids, misc keywords and events). -/
def rawTypedParams (ty : String) : List (String × List String) :=
  if ty ≠ "" then [("TYPE", [ty])] else []

/-- Names: first entry only; FN when the display name is non-empty, and the
five-part N value. -/
def namesStage (names : List GName) (c : Card) : Card :=
  match names with
  | [] => c
  | name :: _ =>
    let c := if name.displayName ≠ "" then cardSet "FN" ⟨name.displayName, []⟩ c else c
    cardSet "N" ⟨name.familyName ++ ";" ++ name.givenName ++ ";" ++ name.middleName ++
      ";" ++ name.honorificPref ++ ";" ++ name.honorificSuffix, []⟩ c

def addNickname (c : Card) (v : String) : Card := cardAdd "NICKNAME" ⟨v, []⟩ c

def addPhone (c : Card) (p : GValueType) : Card :=
  cardAdd "TEL" ⟨p.value, typedParams p.type⟩ c

def addEmail (c : Card) (e : GValueType) : Card :=
  cardAdd "EMAIL" ⟨e.value, typedParams e.type⟩ c

/-- Address packing: seven semicolon-joined components in the fixed order
PO box, extended, street, city, region, postal code, country. -/
def addAddress (c : Card) (a : GAddress) : Card :=
  cardAdd "ADR" ⟨a.postOfficeBox ++ ";" ++ a.extendedAddress ++ ";" ++ a.streetAddress ++
    ";" ++ a.city ++ ";" ++ a.region ++ ";" ++ a.postalCode ++ ";" ++ a.country,
    typedParams a.type⟩ c

/-- Organizations: first entry only; name and department joined by a
semicolon when the department is non-empty; TITLE when present. -/
def orgStage (orgs : List GOrg) (c : Card) : Card :=
  match orgs with
  | [] => c
  | org :: _ =>
    let orgParts := if org.department ≠ "" then org.name ++ ";" ++ org.department else org.name
    let c := cardSet "ORG" ⟨orgParts, []⟩ c
    if org.title ≠ "" then cardSet "TITLE" ⟨org.title, []⟩ c else c

/-- Birthdays: first entry only, encoded by `birthdayDateStr`. -/
def bdayStage (bdays : List GBirthday) (c : Card) : Card :=
  match bdays with
  | [] => c
  | b :: _ =>
    match birthdayDateStr b.date with
    | some s => cardSet "BDAY" ⟨s, []⟩ c
    | none => c

def addPhoto (c : Card) (url : String) : Card := cardAdd "PHOTO" ⟨url, []⟩ c

def addBio (c : Card) (v : String) : Card := cardAdd "NOTE" ⟨v, []⟩ c

def addURL (c : Card) (u : GValueType) : Card :=
  cardAdd "URL" ⟨u.value, typedParams u.type⟩ c

/-- One event: drop when the rendered date string is empty; an event typed
"anniversary" (case-insensitively) replaces the singular ANNIVERSARY value;
any other event is appended as an X-GOOGLE-EVENT extension carrying its
type label verbatim. -/
def addEvent (c : Card) (e : GEvent) : Card :=
  let dateStr := eventDateStr e.date
  if dateStr = "" then c
  else if goToLower e.type = "anniversary" then cardSet "ANNIVERSARY" ⟨dateStr, []⟩ c
  else cardAdd "X-GOOGLE-EVENT" ⟨dateStr, rawTypedParams e.type⟩ c

def addGender (c : Card) (v : String) : Card := cardSet "GENDER" ⟨v, []⟩ c

def addIm (c : Card) (im : GImClient) : Card :=
  cardAdd "IMPP" ⟨goToLower im.protocol ++ ":" ++ im.username, typedParams im.type⟩ c

def addRelation (c : Card) (r : GRelation) : Card :=
  cardAdd "RELATED" ⟨r.person, typedParams r.type⟩ c

def addCalURL (c : Card) (u : GCalendarURL) : Card :=
  cardAdd "CALURI" ⟨u.url, typedParams u.type⟩ c

def addSip (c : Card) (s : GValueType) : Card :=
  cardAdd "IMPP" ⟨"sip:" ++ s.value, typedParams s.type⟩ c

def addLocale (c : Card) (v : String) : Card := cardAdd "LANG" ⟨v, []⟩ c

def addInterest (c : Card) (v : String) : Card := cardAdd "X-GOOGLE-INTEREST" ⟨v, []⟩ c

def addSkill (c : Card) (v : String) : Card := cardAdd "X-GOOGLE-SKILL" ⟨v, []⟩ c

def addOccupation (c : Card) (v : String) : Card := cardAdd "X-GOOGLE-OCCUPATION" ⟨v, []⟩ c

def addLocation (c : Card) (l : GValueType) : Card :=
  cardAdd "X-GOOGLE-LOCATION" ⟨l.value, rawTypedParams l.type⟩ c

def addMembership (c : Card) (m : GMembership) : Card :=
  match m.contactGroup with
  | none => c
  | some g => cardAdd "X-GOOGLE-GROUP-MEMBERSHIP" ⟨g, []⟩ c

def addUserDefined (c : Card) (u : GKeyValue) : Card :=
  cardAdd (udExtKey u.key) ⟨u.value, []⟩ c

def addClientData (c : Card) (u : GKeyValue) : Card :=
  cardAdd (clientExtKey u.key) ⟨u.value, []⟩ c

def addExtId (c : Card) (e : GValueType) : Card :=
  cardAdd "X-GOOGLE-EXTERNAL-ID" ⟨e.value, rawTypedParams e.type⟩ c

def addKeyword (c : Card) (k : GValueType) : Card :=
  cardAdd "X-GOOGLE-KEYWORD" ⟨k.value, rawTypedParams k.type⟩ c

def addCoverPhoto (c : Card) (url : String) : Card := cardAdd "X-GOOGLE-COVER-PHOTO" ⟨url, []⟩ c

def addAgeRange (c : Card) (v : String) : Card := cardAdd "X-GOOGLE-AGE-RANGE" ⟨v, []⟩ c

def addSource (c : Card) (s : GSource) : Card :=
  cardAdd "X-GOOGLE-SOURCE" ⟨s.id, [("TYPE", [s.type])]⟩ c

def metadataStage (md : Option GMetadata) (c : Card) : Card :=
  match md with
  | none => c
  | some m => m.sources.foldl addSource c

/-- VERSION, UID, optional ETAG and the names group (the part of
`convertPeopleAPIToCard` before the repeated-group loops). -/
def headerStages (p : GPerson) : Card :=
  let c := cardSet "VERSION" ⟨"4.0", []⟩ Card.empty
  let c := cardSet "UID" ⟨extractUid p.resourceName, []⟩ c
  let c := if p.etag ≠ "" then cardSet "X-GOOGLE-ETAG" ⟨p.etag, []⟩ c else c
  namesStage p.names c

/-- The repeated-group loops between names and events, in source order. -/
def midStages (p : GPerson) (c : Card) : Card :=
  let c := p.nicknames.foldl addNickname c
  let c := p.phoneNumbers.foldl addPhone c
  let c := p.emailAddresses.foldl addEmail c
  let c := p.addresses.foldl addAddress c
  let c := orgStage p.organizations c
  let c := bdayStage p.birthdays c
  let c := p.photos.foldl addPhoto c
  let c := p.biographies.foldl addBio c
  p.urls.foldl addURL c

/-- The events loop. -/
def eventsStage (p : GPerson) (c : Card) : Card := p.events.foldl addEvent c

/-- The loops after events, in source order, up to and including metadata. -/
def tailStages (p : GPerson) (c : Card) : Card :=
  let c := p.genders.foldl addGender c
  let c := p.imClients.foldl addIm c
  let c := p.relations.foldl addRelation c
  let c := p.calendarUrls.foldl addCalURL c
  let c := p.sipAddresses.foldl addSip c
  let c := p.locales.foldl addLocale c
  let c := p.interests.foldl addInterest c
  let c := p.skills.foldl addSkill c
  let c := p.occupations.foldl addOccupation c
  let c := p.locations.foldl addLocation c
  let c := p.memberships.foldl addMembership c
  let c := p.userDefined.foldl addUserDefined c
  let c := p.clientData.foldl addClientData c
  let c := p.extIds.foldl addExtId c
  let c := p.miscKeywords.foldl addKeyword c
  let c := p.coverPhotos.foldl addCoverPhoto c
  let c := p.ageRanges.foldl addAgeRange c
  metadataStage p.metadata c

/-- `convertPeopleAPIToCard`: the full provider-to-record translation, with
the final fallback that sets FN to the identifier when no formatted name
was produced. -/
def convertPeopleAPIToCard (p : GPerson) : Card :=
  let c := tailStages p (eventsStage p (midStages p (headerStages p)))
  if cardValue "FN" c = "" then cardSet "FN" ⟨extractUid p.resourceName, []⟩ c else c

-- Local store: GetContact, WriteContact, DeleteContact (config.go).

/-- `GetContact`: the filesystem is a map from file name to optional raw
content, and the vcard decoder (an external library) is a parameter. A
missing file yields an explicit `ok none`; a decode failure is a hard
error wrapped with the operation. -/
def getContactM (fs : String → Option String) (decode : String → Except String Card)
    (uid : String) : Except String (Option Card) :=
  match fs (uid ++ ".vcf") with
  | none => Except.ok none
  | some data =>
    match decode data with
    | Except.error e => Except.error ("failed to parse contact file: " ++ e)
    | Except.ok card => Except.ok (some card)

/-- The revision timestamp layout `"20060102T150405Z"`: a UTC wall-clock
instant truncated to whole seconds. -/
structure UTCTime where
  year : Nat
  month : Nat
  day : Nat
  hour : Nat
  minute : Nat
  second : Nat
deriving DecidableEq, Repr

/-- `time.Format("20060102T150405Z")` on a UTC time. -/
def revFormat (t : UTCTime) : String :=
  goFmtInt 4 t.year ++ goFmtInt 2 t.month ++ goFmtInt 2 t.day ++ "T" ++
    goFmtInt 2 t.hour ++ goFmtInt 2 t.minute ++ goFmtInt 2 t.second ++ "Z"

/-- The stamping prefix of `WriteContact`: assign the freshly generated
identifier when the record has none, then set the REV timestamp. -/
def stampCard (freshUid : String) (now : UTCTime) (card : Card) : Card :=
  cardSet "REV" ⟨revFormat now, []⟩
    (if cardUID card = "" then cardSet "UID" ⟨freshUid, []⟩ card else card)

/-- Observable store actions, in the order the code performs them. -/
inductive WrEvent where
  | localWrite (uid : String)
  | providerPush (uid : String)
deriving DecidableEq, Repr

/-- `WriteContact`: stamp, write the local file, then push to the provider
when one is configured; a push failure fails the operation after the local
write. The provider push outcome is the oracle `push`. -/
def writeContactM (providerConfigured : Bool) (push : Card → Except String Unit)
    (freshUid : String) (now : UTCTime) (card : Card) :
    Except String Card × List WrEvent :=
  let stamped := stampCard freshUid now card
  let uid := cardUID stamped
  if providerConfigured then
    match push stamped with
    | Except.error e =>
      (Except.error ("failed to write contact to provider: " ++ e),
        [WrEvent.localWrite uid, WrEvent.providerPush uid])
    | Except.ok _ =>
      (Except.ok stamped, [WrEvent.localWrite uid, WrEvent.providerPush uid])
  else (Except.ok stamped, [WrEvent.localWrite uid])

/-- Observable delete actions, in the order the code performs them. -/
inductive DelEvent where
  | remoteDelete (uid : String)
  | localRemove (uid : String)
deriving DecidableEq, Repr

/-- `DeleteContact`: an identifier without a dash is treated as
provider-assigned; with a provider configured the remote delete runs first
and its failure aborts before the local file is touched. Removing a
missing local file reports "contact not found". The local store is the
list of identifiers whose files exist; an error outcome leaves it
unchanged. -/
def deleteContactM (providerConfigured : Bool) (remote : String → Except String Unit)
    (files : List String) (uid : String) :
    Except String (List String) × List DelEvent :=
  let isProviderContact := !hasDash uid
  if isProviderContact && providerConfigured then
    match remote uid with
    | Except.error e =>
      (Except.error ("failed to delete contact from provider: " ++ e),
        [DelEvent.remoteDelete uid])
    | Except.ok _ =>
      if files.contains uid then
        (Except.ok (files.erase uid), [DelEvent.remoteDelete uid, DelEvent.localRemove uid])
      else
        (Except.error ("contact not found: " ++ uid), [DelEvent.remoteDelete uid])
  else
    if files.contains uid then
      (Except.ok (files.erase uid), [DelEvent.localRemove uid])
    else
      (Except.error ("contact not found: " ++ uid), [])

-- Authorization flow: the callback handler of AuthorizeWithPKCE.

/-- The query parameters of a callback request. -/
structure CallbackQuery where
  error : String
  errorDescription : String
  code : String
  state : String
deriving DecidableEq, Repr

/-- What the callback handler does next: deliver an error on the result
channel, or attempt the authorization-code-for-token exchange. -/
inductive CallbackStep where
  | fail (msg : String)
  | exchange (code verifier : String)
deriving DecidableEq, Repr

/-- Whether a callback step is an error delivery. -/
def CallbackStep.isFail : CallbackStep → Bool
  | CallbackStep.fail _ => true
  | CallbackStep.exchange _ _ => false

/-- Whether a callback step attempts the code-for-token exchange. -/
def CallbackStep.isExchange : CallbackStep → Bool
  | CallbackStep.fail _ => false
  | CallbackStep.exchange _ _ => true

/-- The callback handler of `AuthorizeWithPKCE`, up to the decision whether
to attempt the token exchange: provider error first, then a missing code,
then the anti-forgery state comparison; only when all three pass is the
exchange attempted with the stored verifier. -/
def handleCallback (state verifier : String) (q : CallbackQuery) : CallbackStep :=
  if q.error ≠ "" then
    CallbackStep.fail ("authorization failed: " ++ q.error ++ " - " ++ q.errorDescription)
  else if q.code = "" then
    CallbackStep.fail "no authorization code in callback"
  else if q.state ≠ state then
    CallbackStep.fail "state mismatch: CSRF attack detected"
  else
    CallbackStep.exchange q.code verifier

-- Claim theorems.

/-- C1: in the authorization flow, every callback whose returned `state`
differs from the state generated at flow start makes the handler deliver
an error and never reach the authorization-code-for-token exchange,
whatever the other query parameters are. -/
theorem authorize_state_mismatch_no_exchange (st v : String) (q : CallbackQuery)
    (h : q.state ≠ st) :
    (handleCallback st v q).isFail = true ∧
      (handleCallback st v q).isExchange = false := by
  unfold handleCallback
  by_cases he : q.error ≠ ""
  · simp [he, CallbackStep.isFail, CallbackStep.isExchange]
  · by_cases hc : q.code = ""
    · simp [he, hc, CallbackStep.isFail, CallbackStep.isExchange]
    · simp [he, hc, h, CallbackStep.isFail, CallbackStep.isExchange]

/-- Witness for C1: a concrete callback carrying a valid-looking code but
the wrong state fails and does not exchange. -/
theorem authorize_state_mismatch_no_exchange_witness :
    (("evil" : String) ≠ "expected") ∧
      (handleCallback "expected" "ver" ⟨"", "", "authcode", "evil"⟩).isFail = true ∧
      (handleCallback "expected" "ver" ⟨"", "", "authcode", "evil"⟩).isExchange = false :=
  ⟨by decide,
    authorize_state_mismatch_no_exchange "expected" "ver" ⟨"", "", "authcode", "evil"⟩
      (by decide)⟩

/-- C4: the concrete encode/decode round-trips the claim names: the full
date 1990-06-15 encodes to "19900615" and decodes back to the same triple;
the day/month-only date 03-10 encodes to "--0310" and decodes back to
month 3, day 10 (year absent, represented as 0). -/
theorem date_encode_decode_roundtrip :
    birthdayDateStr ⟨1990, 6, 15⟩ = some "19900615" ∧
    parseDateValue "19900615" = some ⟨1990, 6, 15⟩ ∧
    birthdayDateStr ⟨0, 3, 10⟩ = some "--0310" ∧
    parseDateValue "--0310" = some ⟨0, 3, 10⟩ := by
  decide

/-- C6: when the identifier has no dash (provider provenance) and a
provider is configured, the remote delete runs first, and a remote failure
aborts the operation with only the remote attempt in the trace (the local
store untouched); when the remote step succeeds the local removal follows
it; and deleting an identifier whose local file is missing reports
"contact not found" rather than succeeding silently. -/
theorem delete_remote_first_and_missing_reports (remote : String → Except String Unit)
    (files : List String) (uid : String) :
    (hasDash uid = false →
      (∀ e, remote uid = Except.error e →
        deleteContactM true remote files uid =
          (Except.error ("failed to delete contact from provider: " ++ e),
            [DelEvent.remoteDelete uid])) ∧
      (remote uid = Except.ok () → files.contains uid = true →
        deleteContactM true remote files uid =
          (Except.ok (files.erase uid),
            [DelEvent.remoteDelete uid, DelEvent.localRemove uid]))) ∧
    (files.contains uid = false → (hasDash uid = true ∨ remote uid = Except.ok ()) →
      (deleteContactM true remote files uid).1 =
        Except.error ("contact not found: " ++ uid)) := by
  constructor
  · intro hnd
    constructor
    · intro e he
      simp [deleteContactM, hnd, he]
    · intro hok hf
      have hf' : uid ∈ files := by simpa using hf
      simp [deleteContactM, hnd, hok, hf']
  · intro hf hcase
    have hf' : uid ∉ files := by simpa using hf
    rcases hcase with hd | hok
    · simp [deleteContactM, hd, hf']
    · cases hDash : hasDash uid
      · simp [deleteContactM, hDash, hok, hf']
      · simp [deleteContactM, hDash, hf']

/-- Witness for C6: a failing remote delete on a dashless identifier
aborts before local removal, and deleting a missing identifier errors. -/
theorem delete_remote_first_and_missing_reports_witness :
    (deleteContactM true (fun _ => Except.error "boom") ["c1"] "abc" =
      (Except.error "failed to delete contact from provider: boom",
        [DelEvent.remoteDelete "abc"])) ∧
    ((deleteContactM true (fun _ => Except.ok ()) ["c1"] "zzz").1 =
      Except.error "contact not found: zzz") :=
  ⟨((delete_remote_first_and_missing_reports (fun _ => Except.error "boom")
      ["c1"] "abc").1 (by decide)).1 "boom" rfl,
    (delete_remote_first_and_missing_reports (fun _ => Except.ok ())
      ["c1"] "zzz").2 (by decide) (Or.inr rfl)⟩

/-- C7: writing a record with no identifier stamps the freshly generated
identifier; the REV revision timestamp (second-precision UTC layout) is
always stamped; with a provider configured the local write precedes the
provider push in the action trace; and a push failure fails the whole
operation even though the local write is already in the trace. -/
theorem write_assigns_uid_stamps_rev_local_first (push : Card → Except String Unit)
    (freshUid : String) (now : UTCTime) (card : Card) :
    (cardUID card = "" → cardUID (stampCard freshUid now card) = freshUid) ∧
    cardValue "REV" (stampCard freshUid now card) = revFormat now ∧
    (writeContactM true push freshUid now card).2 =
      [WrEvent.localWrite (cardUID (stampCard freshUid now card)),
        WrEvent.providerPush (cardUID (stampCard freshUid now card))] ∧
    (∀ e, push (stampCard freshUid now card) = Except.error e →
      (writeContactM true push freshUid now card).1 =
        Except.error ("failed to write contact to provider: " ++ e)) ∧
    (push (stampCard freshUid now card) = Except.ok () →
      (writeContactM true push freshUid now card).1 =
        Except.ok (stampCard freshUid now card)) := by
  refine ⟨?_, ?_, ?_, ?_, ?_⟩
  · intro h
    simp only [stampCard, cardUID] at h ⊢
    rw [if_pos h, cardValue_set_ne "UID" "REV" _ _ (by decide), cardValue_set_self]
  · unfold stampCard
    rw [cardValue_set_self]
  · cases hp : push (stampCard freshUid now card) <;> simp [writeContactM, hp]
  · intro e hp
    simp [writeContactM, hp]
  · intro hp
    simp [writeContactM, hp]

/-- Witness for C7: a concrete empty record gets the fresh identifier, and
a concrete failing push fails the write. -/
theorem write_assigns_uid_stamps_rev_local_first_witness :
    (cardUID (stampCard "id-1" ⟨2026, 1, 2, 3, 4, 5⟩ Card.empty) = "id-1") ∧
    ((writeContactM true (fun _ => Except.error "down") "id-1"
        ⟨2026, 1, 2, 3, 4, 5⟩ Card.empty).1 =
      Except.error "failed to write contact to provider: down") :=
  ⟨(write_assigns_uid_stamps_rev_local_first (fun _ => Except.error "down")
      "id-1" ⟨2026, 1, 2, 3, 4, 5⟩ Card.empty).1 rfl,
    (write_assigns_uid_stamps_rev_local_first (fun _ => Except.error "down")
      "id-1" ⟨2026, 1, 2, 3, 4, 5⟩ Card.empty).2.2.2.1 "down" rfl⟩

/-- C8: a lookup whose file is absent returns the explicit not-found value
`ok none` and never an error, while a present file that fails to decode is
a hard error wrapping the decoder's message. -/
theorem get_missing_is_none_decode_failure_is_error (fs : String → Option String)
    (decode : String → Except String Card) (uid : String) :
    (fs (uid ++ ".vcf") = none → getContactM fs decode uid = Except.ok none) ∧
    (∀ d e, fs (uid ++ ".vcf") = some d → decode d = Except.error e →
      getContactM fs decode uid = Except.error ("failed to parse contact file: " ++ e)) := by
  constructor
  · intro h
    simp [getContactM, h]
  · intro d e hd he
    simp [getContactM, hd, he]

/-- Witness for C8: an empty filesystem yields not-found; a present file
with a failing decoder yields the wrapped hard error. -/
theorem get_missing_is_none_decode_failure_is_error_witness :
    (getContactM (fun _ => none) (fun _ => Except.error "bad") "u1" = Except.ok none) ∧
    (getContactM (fun _ => some "data") (fun _ => Except.error "bad") "u1" =
      Except.error "failed to parse contact file: bad") :=
  ⟨(get_missing_is_none_decode_failure_is_error (fun _ => none)
      (fun _ => Except.error "bad") "u1").1 rfl,
    (get_missing_is_none_decode_failure_is_error (fun _ => some "data")
      (fun _ => Except.error "bad") "u1").2 "data" "bad" rfl rfl⟩

/-- C9 counterexample: the distinct user-defined keys "a b" and "a-b"
synthesize the same extension key, so entries under distinct keys can
collide, refuting the claim as stated. -/
theorem extension_key_collision_counterexample :
    udExtKey "a b" = udExtKey "a-b" ∧ ("a b" : String) ≠ "a-b" := by
  decide

/-- C9 amended: two synthesized extension keys coincide exactly when the
normalizations (upper-casing with spaces replaced by dashes) of the
original keys coincide — so distinct keys are collision-free exactly when
their normalizations differ — and a user-defined key never collides with a
client-scoped key. -/
theorem extension_key_injective_up_to_normalization (k₁ k₂ : String) :
    (udExtKey k₁ = udExtKey k₂ ↔
      goToUpper (goSpaceToDash k₁) = goToUpper (goSpaceToDash k₂)) ∧
    (clientExtKey k₁ = clientExtKey k₂ ↔
      goToUpper (goSpaceToDash k₁) = goToUpper (goSpaceToDash k₂)) ∧
    udExtKey k₁ ≠ clientExtKey k₂ := by
  refine ⟨strAppend_right_inj _ _ _, strAppend_right_inj _ _ _, ?_⟩
  intro h
  unfold udExtKey clientExtKey at h
  have hd := congrArg String.data h
  rw [strData_append, strData_append] at hd
  have hlen : ("X-GOOGLE-CUSTOM-" : String).data.length =
      ("X-GOOGLE-CLIENT-" : String).data.length := by decide
  have hpre := (List.append_inj hd hlen).1
  exact absurd (strExt _ _ hpre) (by decide)

/-- C10: the write-path date parser is total and agrees everywhere with
the claim's description — strip every dash wherever it occurs, accept
exactly-8-digit strings naming a valid calendar date as full dates,
exactly-4-digit strings naming a valid month/day as year-less dates, and
drop everything else — so the separator-bearing "1990-06-15" parses as a
full date. -/
theorem parseDateValue_matches_spec :
    (∀ s, parseDateValue s = parseDateValueSpec s) ∧
    parseDateValue "1990-06-15" = some ⟨1990, 6, 15⟩ := by
  constructor
  · intro s
    simp only [parseDateValue, parseDateValueSpec, goParseFullDate, goParseMonthDay,
      isRealDate]
    split_ifs <;> simp_all
  · decide

-- Bucket-preservation lemmas for the conversion stages.

theorem get_fold_addNickname (k : String) (h : k ≠ "NICKNAME") (l : List String) (c : Card) :
    cardGet k (List.foldl addNickname c l) = cardGet k c :=
  foldl_cardGet_const _ _ (fun _ _ => cardGet_add_ne _ _ _ _ h) l c

theorem get_fold_addPhone (k : String) (h : k ≠ "TEL") (l : List GValueType) (c : Card) :
    cardGet k (List.foldl addPhone c l) = cardGet k c :=
  foldl_cardGet_const _ _ (fun _ _ => cardGet_add_ne _ _ _ _ h) l c

theorem get_fold_addEmail (k : String) (h : k ≠ "EMAIL") (l : List GValueType) (c : Card) :
    cardGet k (List.foldl addEmail c l) = cardGet k c :=
  foldl_cardGet_const _ _ (fun _ _ => cardGet_add_ne _ _ _ _ h) l c

theorem get_fold_addAddress (k : String) (h : k ≠ "ADR") (l : List GAddress) (c : Card) :
    cardGet k (List.foldl addAddress c l) = cardGet k c :=
  foldl_cardGet_const _ _ (fun _ _ => cardGet_add_ne _ _ _ _ h) l c

theorem get_orgStage (k : String) (h1 : k ≠ "ORG") (h2 : k ≠ "TITLE")
    (orgs : List GOrg) (c : Card) : cardGet k (orgStage orgs c) = cardGet k c := by
  cases orgs with
  | nil => rfl
  | cons org t =>
    show cardGet k
        (if org.title ≠ "" then
          cardSet "TITLE" ⟨org.title, []⟩
            (cardSet "ORG"
              ⟨if org.department ≠ "" then org.name ++ ";" ++ org.department else org.name,
                []⟩ c)
        else
          cardSet "ORG"
            ⟨if org.department ≠ "" then org.name ++ ";" ++ org.department else org.name,
              []⟩ c) =
      cardGet k c
    split_ifs <;>
      first
      | rw [cardGet_set_ne _ _ _ _ h2, cardGet_set_ne _ _ _ _ h1]
      | rw [cardGet_set_ne _ _ _ _ h1]

theorem get_bdayStage (k : String) (h : k ≠ "BDAY")
    (bdays : List GBirthday) (c : Card) : cardGet k (bdayStage bdays c) = cardGet k c := by
  cases bdays with
  | nil => rfl
  | cons b t =>
    show cardGet k
        (match birthdayDateStr b.date with
         | some s => cardSet "BDAY" ⟨s, []⟩ c
         | none => c) =
      cardGet k c
    cases birthdayDateStr b.date with
    | none => rfl
    | some s => exact cardGet_set_ne _ _ _ _ h

theorem get_fold_addPhoto (k : String) (h : k ≠ "PHOTO") (l : List String) (c : Card) :
    cardGet k (List.foldl addPhoto c l) = cardGet k c :=
  foldl_cardGet_const _ _ (fun _ _ => cardGet_add_ne _ _ _ _ h) l c

theorem get_fold_addBio (k : String) (h : k ≠ "NOTE") (l : List String) (c : Card) :
    cardGet k (List.foldl addBio c l) = cardGet k c :=
  foldl_cardGet_const _ _ (fun _ _ => cardGet_add_ne _ _ _ _ h) l c

theorem get_fold_addURL (k : String) (h : k ≠ "URL") (l : List GValueType) (c : Card) :
    cardGet k (List.foldl addURL c l) = cardGet k c :=
  foldl_cardGet_const _ _ (fun _ _ => cardGet_add_ne _ _ _ _ h) l c

theorem get_addEvent (k : String) (h1 : k ≠ "ANNIVERSARY") (h2 : k ≠ "X-GOOGLE-EVENT")
    (c : Card) (e : GEvent) : cardGet k (addEvent c e) = cardGet k c := by
  unfold addEvent
  simp only []
  split_ifs
  · rfl
  · exact cardGet_set_ne _ _ _ _ h1
  · exact cardGet_add_ne _ _ _ _ h2

theorem get_fold_addEvent (k : String) (h1 : k ≠ "ANNIVERSARY") (h2 : k ≠ "X-GOOGLE-EVENT")
    (l : List GEvent) (c : Card) : cardGet k (List.foldl addEvent c l) = cardGet k c :=
  foldl_cardGet_const _ _ (fun c e => get_addEvent k h1 h2 c e) l c

theorem get_fold_addGender (k : String) (h : k ≠ "GENDER") (l : List String) (c : Card) :
    cardGet k (List.foldl addGender c l) = cardGet k c :=
  foldl_cardGet_const _ _ (fun _ _ => cardGet_set_ne _ _ _ _ h) l c

theorem get_fold_addIm (k : String) (h : k ≠ "IMPP") (l : List GImClient) (c : Card) :
    cardGet k (List.foldl addIm c l) = cardGet k c :=
  foldl_cardGet_const _ _ (fun _ _ => cardGet_add_ne _ _ _ _ h) l c

theorem get_fold_addRelation (k : String) (h : k ≠ "RELATED") (l : List GRelation) (c : Card) :
    cardGet k (List.foldl addRelation c l) = cardGet k c :=
  foldl_cardGet_const _ _ (fun _ _ => cardGet_add_ne _ _ _ _ h) l c

theorem get_fold_addCalURL (k : String) (h : k ≠ "CALURI") (l : List GCalendarURL) (c : Card) :
    cardGet k (List.foldl addCalURL c l) = cardGet k c :=
  foldl_cardGet_const _ _ (fun _ _ => cardGet_add_ne _ _ _ _ h) l c

theorem get_fold_addSip (k : String) (h : k ≠ "IMPP") (l : List GValueType) (c : Card) :
    cardGet k (List.foldl addSip c l) = cardGet k c :=
  foldl_cardGet_const _ _ (fun _ _ => cardGet_add_ne _ _ _ _ h) l c

theorem get_fold_addLocale (k : String) (h : k ≠ "LANG") (l : List String) (c : Card) :
    cardGet k (List.foldl addLocale c l) = cardGet k c :=
  foldl_cardGet_const _ _ (fun _ _ => cardGet_add_ne _ _ _ _ h) l c

theorem get_fold_addInterest (k : String) (h : k ≠ "X-GOOGLE-INTEREST") (l : List String)
    (c : Card) : cardGet k (List.foldl addInterest c l) = cardGet k c :=
  foldl_cardGet_const _ _ (fun _ _ => cardGet_add_ne _ _ _ _ h) l c

theorem get_fold_addSkill (k : String) (h : k ≠ "X-GOOGLE-SKILL") (l : List String)
    (c : Card) : cardGet k (List.foldl addSkill c l) = cardGet k c :=
  foldl_cardGet_const _ _ (fun _ _ => cardGet_add_ne _ _ _ _ h) l c

theorem get_fold_addOccupation (k : String) (h : k ≠ "X-GOOGLE-OCCUPATION") (l : List String)
    (c : Card) : cardGet k (List.foldl addOccupation c l) = cardGet k c :=
  foldl_cardGet_const _ _ (fun _ _ => cardGet_add_ne _ _ _ _ h) l c

theorem get_fold_addLocation (k : String) (h : k ≠ "X-GOOGLE-LOCATION") (l : List GValueType)
    (c : Card) : cardGet k (List.foldl addLocation c l) = cardGet k c :=
  foldl_cardGet_const _ _ (fun _ _ => cardGet_add_ne _ _ _ _ h) l c

theorem get_addMembership (k : String) (h : k ≠ "X-GOOGLE-GROUP-MEMBERSHIP")
    (c : Card) (m : GMembership) : cardGet k (addMembership c m) = cardGet k c := by
  unfold addMembership
  cases m.contactGroup with
  | none => rfl
  | some g => exact cardGet_add_ne _ _ _ _ h

theorem get_fold_addMembership (k : String) (h : k ≠ "X-GOOGLE-GROUP-MEMBERSHIP")
    (l : List GMembership) (c : Card) : cardGet k (List.foldl addMembership c l) = cardGet k c :=
  foldl_cardGet_const _ _ (fun c m => get_addMembership k h c m) l c

theorem length_udExtKey_ge (s : String) : 16 ≤ (udExtKey s).length := by
  unfold udExtKey
  rw [strLength_append]
  have h : ("X-GOOGLE-CUSTOM-" : String).length = 16 := by decide
  omega

theorem length_clientExtKey_ge (s : String) : 16 ≤ (clientExtKey s).length := by
  unfold clientExtKey
  rw [strLength_append]
  have h : ("X-GOOGLE-CLIENT-" : String).length = 16 := by decide
  omega

theorem ne_udExtKey (k s : String) (h : k.length < 16) : k ≠ udExtKey s := by
  intro he
  have := length_udExtKey_ge s
  rw [← he] at this
  omega

theorem ne_clientExtKey (k s : String) (h : k.length < 16) : k ≠ clientExtKey s := by
  intro he
  have := length_clientExtKey_ge s
  rw [← he] at this
  omega

theorem get_fold_addUserDefined (k : String) (h : k.length < 16) (l : List GKeyValue)
    (c : Card) : cardGet k (List.foldl addUserDefined c l) = cardGet k c := by
  apply foldl_cardGet_const
  intro c u
  unfold addUserDefined
  exact cardGet_add_ne _ _ _ _ (ne_udExtKey k u.key h)

theorem get_fold_addClientData (k : String) (h : k.length < 16) (l : List GKeyValue)
    (c : Card) : cardGet k (List.foldl addClientData c l) = cardGet k c := by
  apply foldl_cardGet_const
  intro c u
  unfold addClientData
  exact cardGet_add_ne _ _ _ _ (ne_clientExtKey k u.key h)

theorem get_fold_addExtId (k : String) (h : k ≠ "X-GOOGLE-EXTERNAL-ID") (l : List GValueType)
    (c : Card) : cardGet k (List.foldl addExtId c l) = cardGet k c :=
  foldl_cardGet_const _ _ (fun _ _ => cardGet_add_ne _ _ _ _ h) l c

theorem get_fold_addKeyword (k : String) (h : k ≠ "X-GOOGLE-KEYWORD") (l : List GValueType)
    (c : Card) : cardGet k (List.foldl addKeyword c l) = cardGet k c :=
  foldl_cardGet_const _ _ (fun _ _ => cardGet_add_ne _ _ _ _ h) l c

theorem get_fold_addCoverPhoto (k : String) (h : k ≠ "X-GOOGLE-COVER-PHOTO") (l : List String)
    (c : Card) : cardGet k (List.foldl addCoverPhoto c l) = cardGet k c :=
  foldl_cardGet_const _ _ (fun _ _ => cardGet_add_ne _ _ _ _ h) l c

theorem get_fold_addAgeRange (k : String) (h : k ≠ "X-GOOGLE-AGE-RANGE") (l : List String)
    (c : Card) : cardGet k (List.foldl addAgeRange c l) = cardGet k c :=
  foldl_cardGet_const _ _ (fun _ _ => cardGet_add_ne _ _ _ _ h) l c

theorem get_metadataStage (k : String) (h : k ≠ "X-GOOGLE-SOURCE") (md : Option GMetadata)
    (c : Card) : cardGet k (metadataStage md c) = cardGet k c := by
  unfold metadataStage
  cases md with
  | none => rfl
  | some m => exact foldl_cardGet_const _ _ (fun _ _ => cardGet_add_ne _ _ _ _ h) m.sources c

/-- Every stage between the names group and the final FN fallback leaves
the buckets of interest to the claims untouched. -/
theorem get_midStages (k : String) (p : GPerson) (c : Card)
    (h1 : k ≠ "NICKNAME") (h2 : k ≠ "TEL") (h3 : k ≠ "EMAIL") (h4 : k ≠ "ADR")
    (h5 : k ≠ "ORG") (h6 : k ≠ "TITLE") (h7 : k ≠ "BDAY") (h8 : k ≠ "PHOTO")
    (h9 : k ≠ "NOTE") (h10 : k ≠ "URL") :
    cardGet k (midStages p c) = cardGet k c := by
  unfold midStages
  rw [get_fold_addURL k h10, get_fold_addBio k h9, get_fold_addPhoto k h8,
    get_bdayStage k h7, get_orgStage k h5 h6, get_fold_addAddress k h4,
    get_fold_addEmail k h3, get_fold_addPhone k h2, get_fold_addNickname k h1]

theorem get_tailStages (k : String) (p : GPerson) (c : Card)
    (h1 : k ≠ "GENDER") (h2 : k ≠ "IMPP") (h3 : k ≠ "RELATED") (h4 : k ≠ "CALURI")
    (h5 : k ≠ "LANG") (h6 : k ≠ "X-GOOGLE-INTEREST") (h7 : k ≠ "X-GOOGLE-SKILL")
    (h8 : k ≠ "X-GOOGLE-OCCUPATION") (h9 : k ≠ "X-GOOGLE-LOCATION")
    (h10 : k ≠ "X-GOOGLE-GROUP-MEMBERSHIP") (h11 : k ≠ "X-GOOGLE-EXTERNAL-ID")
    (h12 : k ≠ "X-GOOGLE-KEYWORD") (h13 : k ≠ "X-GOOGLE-COVER-PHOTO")
    (h14 : k ≠ "X-GOOGLE-AGE-RANGE") (h15 : k ≠ "X-GOOGLE-SOURCE")
    (hlen : k.length < 16) :
    cardGet k (tailStages p c) = cardGet k c := by
  unfold tailStages
  rw [get_metadataStage k h15, get_fold_addAgeRange k h14, get_fold_addCoverPhoto k h13,
    get_fold_addKeyword k h12, get_fold_addExtId k h11, get_fold_addClientData k hlen,
    get_fold_addUserDefined k hlen, get_fold_addMembership k h10, get_fold_addLocation k h9,
    get_fold_addOccupation k h8, get_fold_addSkill k h7, get_fold_addInterest k h6,
    get_fold_addLocale k h5, get_fold_addSip k h2, get_fold_addCalURL k h4,
    get_fold_addRelation k h3, get_fold_addIm k h2, get_fold_addGender k h1]

/-- The first display name of a provider contact, or `""`. -/
def displayNameOf (p : GPerson) : String :=
  match p.names with
  | [] => ""
  | n :: _ => n.displayName

theorem get_namesStage (k : String) (h1 : k ≠ "FN") (h2 : k ≠ "N")
    (names : List GName) (c : Card) : cardGet k (namesStage names c) = cardGet k c := by
  cases names with
  | nil => rfl
  | cons n t =>
    simp only [namesStage]
    split_ifs
    · rw [cardGet_set_ne _ _ _ _ h2, cardGet_set_ne _ _ _ _ h1]
    · rw [cardGet_set_ne _ _ _ _ h2]

theorem fn_namesStage (names : List GName) (c : Card) (hc : cardValue "FN" c = "") :
    cardValue "FN" (namesStage names c) =
      (match names with | [] => "" | n :: _ => n.displayName) := by
  cases names with
  | nil => exact hc
  | cons n t =>
    simp only [namesStage]
    rw [cardValue_set_ne _ _ _ _ (by decide)]
    split_ifs with h
    · exact cardValue_set_self _ _ _
    · simp only [ne_eq, not_not] at h
      rw [hc, h]

theorem fn_headerStages (p : GPerson) :
    cardValue "FN" (headerStages p) = displayNameOf p := by
  simp only [headerStages, displayNameOf]
  refine fn_namesStage p.names _ ?_
  split_ifs
  · rw [cardValue_set_ne _ _ _ _ (by decide), cardValue_set_ne _ _ _ _ (by decide),
      cardValue_set_ne _ _ _ _ (by decide)]
    rfl
  · rw [cardValue_set_ne _ _ _ _ (by decide), cardValue_set_ne _ _ _ _ (by decide)]
    rfl

theorem uid_headerStages (p : GPerson) :
    cardGet "UID" (headerStages p) = [⟨extractUid p.resourceName, []⟩] := by
  simp only [headerStages]
  rw [get_namesStage "UID" (by decide) (by decide)]
  split_ifs
  · rw [cardGet_set_ne _ _ _ _ (by decide), cardGet_set_self]
  · rw [cardGet_set_self]

theorem get_headerStages (k : String) (p : GPerson) (h1 : k ≠ "VERSION") (h2 : k ≠ "UID")
    (h3 : k ≠ "X-GOOGLE-ETAG") (h4 : k ≠ "FN") (h5 : k ≠ "N") :
    cardGet k (headerStages p) = [] := by
  simp only [headerStages]
  rw [get_namesStage k h4 h5]
  split_ifs
  · rw [cardGet_set_ne _ _ _ _ h3, cardGet_set_ne _ _ _ _ h2, cardGet_set_ne _ _ _ _ h1]
    rfl
  · rw [cardGet_set_ne _ _ _ _ h2, cardGet_set_ne _ _ _ _ h1]
    rfl

-- The events stage, characterized.

/-- The X-GOOGLE-EVENT extension entries produced by a list of provider
events: every event with a non-empty rendered date whose type is not
"anniversary" (case-insensitively), in order, carrying its type label. -/
def eventsExtFields (es : List GEvent) : List VField :=
  es.filterMap (fun e =>
    if eventDateStr e.date ≠ "" ∧ goToLower e.type ≠ "anniversary" then
      some ⟨eventDateStr e.date, rawTypedParams e.type⟩
    else none)

/-- The final ANNIVERSARY value produced by a list of provider events: the
rendered date of the last anniversary-typed event with a non-empty date,
if any. -/
def eventsAnnValue : List GEvent → Option String
  | [] => none
  | e :: es =>
    match eventsAnnValue es with
    | some v => some v
    | none =>
      if eventDateStr e.date ≠ "" ∧ goToLower e.type = "anniversary" then
        some (eventDateStr e.date)
      else none

theorem events_fold_spec (es : List GEvent) : ∀ c : Card,
    cardGet "X-GOOGLE-EVENT" (List.foldl addEvent c es) =
      cardGet "X-GOOGLE-EVENT" c ++ eventsExtFields es ∧
    cardValue "ANNIVERSARY" (List.foldl addEvent c es) =
      (match eventsAnnValue es with
       | some v => v
       | none => cardValue "ANNIVERSARY" c) := by
  induction es with
  | nil => intro c; simp [eventsExtFields, eventsAnnValue]
  | cons e es ih =>
    intro c
    rw [List.foldl_cons]
    obtain ⟨ih1, ih2⟩ := ih (addEvent c e)
    have hXA : ("X-GOOGLE-EVENT" : String) ≠ "ANNIVERSARY" := by decide
    have hAX : ("ANNIVERSARY" : String) ≠ "X-GOOGLE-EVENT" := by decide
    refine ⟨?_, ?_⟩
    · rw [ih1]
      by_cases hd : eventDateStr e.date = ""
      · have he : addEvent c e = c := by simp [addEvent, hd]
        rw [he]
        simp [eventsExtFields, List.filterMap_cons, hd]
      · by_cases ha : goToLower e.type = "anniversary"
        · have he : addEvent c e = cardSet "ANNIVERSARY" ⟨eventDateStr e.date, []⟩ c := by
            simp [addEvent, hd, ha]
          rw [he, cardGet_set_ne _ _ _ _ hXA]
          simp [eventsExtFields, List.filterMap_cons, hd, ha]
        · have he : addEvent c e =
              cardAdd "X-GOOGLE-EVENT" ⟨eventDateStr e.date, rawTypedParams e.type⟩ c := by
            simp [addEvent, hd, ha]
          rw [he, cardGet_add_self]
          simp [eventsExtFields, List.filterMap_cons, hd, ha]
    · rw [ih2]
      cases hrest : eventsAnnValue es with
      | some v => simp [eventsAnnValue, hrest]
      | none =>
        simp only [eventsAnnValue, hrest]
        by_cases hd : eventDateStr e.date = ""
        · have he : addEvent c e = c := by simp [addEvent, hd]
          rw [he]
          simp [hd]
        · by_cases ha : goToLower e.type = "anniversary"
          · have he : addEvent c e = cardSet "ANNIVERSARY" ⟨eventDateStr e.date, []⟩ c := by
              simp [addEvent, hd, ha]
            rw [he, cardValue_set_self]
            simp [hd, ha]
          · have he : addEvent c e =
                cardAdd "X-GOOGLE-EVENT" ⟨eventDateStr e.date, rawTypedParams e.type⟩ c := by
              simp [addEvent, hd, ha]
            rw [he, cardValue_eq_of_get_eq _ _ _ (cardGet_add_ne _ _ _ _ hAX)]
            simp [hd, ha]

theorem cardValue_of_get_single (k : String) (c : Card) (f : VField)
    (h : cardGet k c = [f]) : cardValue k c = f.value := by
  unfold cardValue
  unfold cardGet at h
  rw [h]

theorem cardValue_of_get_nil (k : String) (c : Card)
    (h : cardGet k c = []) : cardValue k c = "" := by
  unfold cardValue
  unfold cardGet at h
  rw [h]

/-- The FN value just before the final fallback equals the first display
name (or `""` when there is none): no stage after the names group touches
the FN bucket. -/
theorem fn_before_fallback (p : GPerson) :
    cardValue "FN" (tailStages p (eventsStage p (midStages p (headerStages p)))) =
      displayNameOf p := by
  have h1 : cardGet "FN" (tailStages p (eventsStage p (midStages p (headerStages p)))) =
      cardGet "FN" (headerStages p) := by
    rw [get_tailStages "FN" p _ (by decide) (by decide) (by decide) (by decide) (by decide)
      (by decide) (by decide) (by decide) (by decide) (by decide) (by decide) (by decide)
      (by decide) (by decide) (by decide) (by decide)]
    simp only [eventsStage]
    rw [get_fold_addEvent "FN" (by decide) (by decide)]
    rw [get_midStages "FN" p _ (by decide) (by decide) (by decide) (by decide) (by decide)
      (by decide) (by decide) (by decide) (by decide) (by decide)]
  rw [cardValue_eq_of_get_eq _ _ _ h1, fn_headerStages]

/-- The FN value of the translated record: the first non-empty display
name when present, else the extracted identifier. -/
theorem fn_convert (p : GPerson) :
    cardFullName (convertPeopleAPIToCard p) =
      if displayNameOf p = "" then extractUid p.resourceName else displayNameOf p := by
  unfold cardFullName
  simp only [convertPeopleAPIToCard]
  have hv := fn_before_fallback p
  by_cases hdn : displayNameOf p = ""
  · rw [if_pos hdn]
    have hcond : cardValue "FN"
        (tailStages p (eventsStage p (midStages p (headerStages p)))) = "" := hv.trans hdn
    rw [if_pos hcond, cardValue_set_self]
  · rw [if_neg hdn]
    have hcond : ¬ cardValue "FN"
        (tailStages p (eventsStage p (midStages p (headerStages p)))) = "" := by
      rw [hv]; exact hdn
    rw [if_neg hcond]
    exact hv

/-- The UID bucket survives every stage after the header. -/
theorem uid_convert (p : GPerson) :
    cardValue "UID" (convertPeopleAPIToCard p) = extractUid p.resourceName := by
  simp only [convertPeopleAPIToCard]
  have hget : cardGet "UID" (tailStages p (eventsStage p (midStages p (headerStages p)))) =
      [⟨extractUid p.resourceName, []⟩] := by
    rw [get_tailStages "UID" p _ (by decide) (by decide) (by decide) (by decide) (by decide)
      (by decide) (by decide) (by decide) (by decide) (by decide) (by decide) (by decide)
      (by decide) (by decide) (by decide) (by decide)]
    simp only [eventsStage]
    rw [get_fold_addEvent "UID" (by decide) (by decide)]
    rw [get_midStages "UID" p _ (by decide) (by decide) (by decide) (by decide) (by decide)
      (by decide) (by decide) (by decide) (by decide) (by decide)]
    exact uid_headerStages p
  split_ifs
  · exact cardValue_of_get_single _ _ _
      ((cardGet_set_ne _ _ _ _ (by decide)).trans hget)
  · exact cardValue_of_get_single _ _ _ hget

theorem xge_before_fallback (p : GPerson) :
    cardGet "X-GOOGLE-EVENT" (tailStages p (eventsStage p (midStages p (headerStages p)))) =
      eventsExtFields p.events := by
  rw [get_tailStages "X-GOOGLE-EVENT" p _ (by decide) (by decide) (by decide) (by decide)
    (by decide) (by decide) (by decide) (by decide) (by decide) (by decide) (by decide)
    (by decide) (by decide) (by decide) (by decide) (by decide)]
  simp only [eventsStage]
  rw [(events_fold_spec p.events _).1]
  rw [get_midStages "X-GOOGLE-EVENT" p _ (by decide) (by decide) (by decide) (by decide)
    (by decide) (by decide) (by decide) (by decide) (by decide) (by decide)]
  rw [get_headerStages "X-GOOGLE-EVENT" p (by decide) (by decide) (by decide) (by decide)
    (by decide)]
  rfl

theorem ann_before_fallback (p : GPerson) :
    cardValue "ANNIVERSARY" (tailStages p (eventsStage p (midStages p (headerStages p)))) =
      (match eventsAnnValue p.events with | some v => v | none => "") := by
  have hg : cardGet "ANNIVERSARY"
      (tailStages p (eventsStage p (midStages p (headerStages p)))) =
      cardGet "ANNIVERSARY" (eventsStage p (midStages p (headerStages p))) := by
    rw [get_tailStages "ANNIVERSARY" p _ (by decide) (by decide) (by decide) (by decide)
      (by decide) (by decide) (by decide) (by decide) (by decide) (by decide) (by decide)
      (by decide) (by decide) (by decide) (by decide) (by decide)]
  rw [cardValue_eq_of_get_eq _ _ _ hg]
  simp only [eventsStage]
  rw [(events_fold_spec p.events _).2]
  have hmid : cardValue "ANNIVERSARY" (midStages p (headerStages p)) = "" := by
    apply cardValue_of_get_nil
    rw [get_midStages "ANNIVERSARY" p _ (by decide) (by decide) (by decide) (by decide)
      (by decide) (by decide) (by decide) (by decide) (by decide) (by decide)]
    exact get_headerStages "ANNIVERSARY" p (by decide) (by decide) (by decide) (by decide)
      (by decide)
  cases hann : eventsAnnValue p.events <;> simp [hann, hmid]

/-- A provider contact carrying only a resource name: every optional field
group absent. -/
def minimalPerson (rn : String) : GPerson where
  resourceName := rn
  etag := ""
  names := []
  nicknames := []
  phoneNumbers := []
  emailAddresses := []
  addresses := []
  organizations := []
  birthdays := []
  photos := []
  biographies := []
  urls := []
  events := []
  genders := []
  imClients := []
  relations := []
  calendarUrls := []
  sipAddresses := []
  locales := []
  interests := []
  skills := []
  occupations := []
  locations := []
  memberships := []
  userDefined := []
  clientData := []
  extIds := []
  miscKeywords := []
  coverPhotos := []
  ageRanges := []
  metadata := none

/-- C2: for every provider contact with no optional field groups set, the
translated record's identifier is the trailing segment of the resource
name (after stripping any path-style prefix) and its formatted display
name defaults to that same identifier. -/
theorem minimal_contact_uid_and_fn (rn : String) :
    cardValue "UID" (convertPeopleAPIToCard (minimalPerson rn)) = extractUid rn ∧
    cardFullName (convertPeopleAPIToCard (minimalPerson rn)) = extractUid rn := by
  constructor
  · exact uid_convert (minimalPerson rn)
  · rw [fn_convert (minimalPerson rn)]
    simp [displayNameOf, minimalPerson]

/-- C3 counterexample: the degenerate provider contact whose resource name
is empty translates to a record with an empty formatted display name, so
the display name is not never-empty as claimed. -/
theorem fn_empty_counterexample :
    cardFullName (convertPeopleAPIToCard (minimalPerson "")) = "" := by
  decide

/-- C3 amended: the formatted display name of every translated record is
the first display name when one is non-empty and otherwise defaults to the
record's identifier; consequently it is non-empty whenever the identifier
is non-empty (the code does not guard against an empty identifier, see the
counterexample). -/
theorem fn_defaults_to_identifier (p : GPerson) :
    cardFullName (convertPeopleAPIToCard p) =
      (if displayNameOf p = "" then extractUid p.resourceName else displayNameOf p) ∧
    (extractUid p.resourceName ≠ "" → cardFullName (convertPeopleAPIToCard p) ≠ "") := by
  refine ⟨fn_convert p, ?_⟩
  intro huid
  rw [fn_convert p]
  by_cases hdn : displayNameOf p = ""
  · rw [if_pos hdn]; exact huid
  · rw [if_neg hdn]; exact hdn

/-- Witness for C3 amended: a concrete contact with no display name gets
its non-empty identifier as formatted name. -/
theorem fn_defaults_to_identifier_witness :
    extractUid "people/c77" ≠ "" ∧
      cardFullName (convertPeopleAPIToCard (minimalPerson "people/c77")) ≠ "" :=
  ⟨by decide, (fn_defaults_to_identifier (minimalPerson "people/c77")).2 (by decide)⟩

/-- C5 counterexample: an event whose date has a positive year but no
month and no day is not dropped — the code renders it as "00010000" and
emits an X-GOOGLE-EVENT field — contradicting the claim that a date with
no day/month produces no field. -/
theorem event_year_only_not_dropped_counterexample :
    cardGet "X-GOOGLE-EVENT"
        (convertPeopleAPIToCard
          { minimalPerson "people/c1" with events := [⟨⟨1, 0, 0⟩, "party"⟩] }) =
      [⟨"00010000", [("TYPE", ["party"])]⟩] := by
  decide

/-- C5 amended: the translated record's event fields are exactly the fold
the code performs — an event date with a positive year renders as
YYYYMMDD (month and day rendered as two digits even when zero, so such a
date is NOT dropped); a date without positive year renders as --MMDD when
month and day are both positive and is dropped otherwise; events typed
"anniversary" case-insensitively go to the singular ANNIVERSARY field
(last such event wins), and every other rendered event becomes a repeated
X-GOOGLE-EVENT extension entry carrying its type label. -/
theorem events_render_and_route (p : GPerson) :
    cardGet "X-GOOGLE-EVENT" (convertPeopleAPIToCard p) = eventsExtFields p.events ∧
    cardValue "ANNIVERSARY" (convertPeopleAPIToCard p) =
      (match eventsAnnValue p.events with | some v => v | none => "") ∧
    (∀ d : GDate,
      (0 < d.year →
        eventDateStr d = goFmtInt 4 d.year ++ goFmtInt 2 d.month ++ goFmtInt 2 d.day) ∧
      (d.year ≤ 0 → 0 < d.month → 0 < d.day →
        eventDateStr d = "--" ++ goFmtInt 2 d.month ++ goFmtInt 2 d.day) ∧
      (d.year ≤ 0 → (d.month ≤ 0 ∨ d.day ≤ 0) → eventDateStr d = "")) := by
  refine ⟨?_, ?_, ?_⟩
  · simp only [convertPeopleAPIToCard]
    split_ifs
    · rw [cardGet_set_ne _ _ _ _ (by decide)]
      exact xge_before_fallback p
    · exact xge_before_fallback p
  · simp only [convertPeopleAPIToCard]
    split_ifs
    · rw [cardValue_eq_of_get_eq _ _ _ (cardGet_set_ne _ _ _ _ (by decide))]
      exact ann_before_fallback p
    · exact ann_before_fallback p
  · intro d
    refine ⟨?_, ?_, ?_⟩
    · intro hy
      simp only [eventDateStr]
      rw [if_pos hy]
    · intro hy hm hd
      simp only [eventDateStr]
      have hny : ¬ 0 < d.year := by omega
      rw [if_neg hny, if_pos ⟨hm, hd⟩]
    · intro hy hmd
      simp only [eventDateStr]
      have hny : ¬ 0 < d.year := by omega
      have hnmd : ¬ (0 < d.month ∧ 0 < d.day) := by
        rcases hmd with h | h <;> omega
      rw [if_neg hny, if_neg hnmd]

/-- Witness for C5 amended: concrete renderings of a full date, a
month/day-only date, and a dropped date. -/
theorem events_render_and_route_witness :
    ((0 : Int) < 1990 ∧
      eventDateStr ⟨1990, 6, 15⟩ = goFmtInt 4 1990 ++ goFmtInt 2 6 ++ goFmtInt 2 15) ∧
    ((0 : Int) ≤ 0 ∧ (0 : Int) < 3 ∧ (0 : Int) < 10 ∧
      eventDateStr ⟨0, 3, 10⟩ = "--" ++ goFmtInt 2 3 ++ goFmtInt 2 10) ∧
    ((0 : Int) ≤ 0 ∧ ((0 : Int) ≤ 0 ∨ (0 : Int) ≤ 0) ∧ eventDateStr ⟨0, 0, 7⟩ = "") :=
  ⟨⟨by decide,
      ((events_render_and_route (minimalPerson "w")).2.2 ⟨1990, 6, 15⟩).1 (by decide)⟩,
    ⟨by decide, by decide, by decide,
      ((events_render_and_route (minimalPerson "w")).2.2 ⟨0, 3, 10⟩).2.1 (by decide)
        (by decide) (by decide)⟩,
    ⟨by decide, Or.inl (by decide),
      ((events_render_and_route (minimalPerson "w")).2.2 ⟨0, 0, 7⟩).2.2 (by decide)
        (Or.inl (by decide))⟩⟩

/-- Witness for C9 amended: concrete instances of the characterization. -/
theorem extension_key_injective_up_to_normalization_witness :
    (udExtKey "home page" = udExtKey "HOME-PAGE" ↔
      goToUpper (goSpaceToDash "home page") = goToUpper (goSpaceToDash "HOME-PAGE")) ∧
    udExtKey "x" ≠ clientExtKey "x" :=
  ⟨(extension_key_injective_up_to_normalization "home page" "HOME-PAGE").1,
    (extension_key_injective_up_to_normalization "x" "x").2.2⟩
